import Mathlib

/-!
Verification of the provider-normalization and dispatch subsystem of the
Ocenic-Data-Sync ingestion backend (`main.py`, `providers.py`,
`providers/fetch_cmfri.py`, `tools/cmfritool.py`, `tools/parsetool.py`).

The Python code is shallowly embedded: each provider adapter becomes a pure
Lean function from its request payload and the (out-of-scope) upstream HTTP
response to its list of emitted records; exceptions become `Except`;
Python dicts with string keys become association lists; Python floats become
`ℚ`; `datetime` values are kept as their ISO strings (datetime parsing is an
external stdlib collaborator, out of the spec's scope).
-/

set_option autoImplicit false

namespace OceanSync

/-- Python scalar JSON-ish values as they flow through the adapters:
`None`, ints, floats (as `ℚ`), and strings. -/
inductive PyVal where
  | vnone
  | vint (n : Int)
  | vfloat (q : ℚ)
  | vstr (s : String)
  deriving DecidableEq, Repr

/-- Value of the decimal digit string `cs` (all chars assumed digits). -/
def natOfDigits (cs : List Char) : Nat :=
  cs.foldl (fun n c => n * 10 + (c.toNat - 48)) 0

/-- Python's whitespace class (as used by `str.strip()` and `float(str)`). -/
def pySpace (c : Char) : Bool :=
  c = ' ' || c = '\t' || c = '\n' || c = '\r' || c = '\x0c' || c = '\x0b'

/-- Splitting a char list at every occurrence of the separator char
(Python `str.split(sep)` for a one-char separator, on char lists). -/
def splitCharAux (sep : Char) (cur : List Char) : List Char → List (List Char)
  | [] => [cur]
  | c :: rest =>
    if c = sep then cur :: splitCharAux sep [] rest
    else splitCharAux sep (cur ++ [c]) rest

/-- Python `s.split(sep)` for a one-char separator. -/
def pySplit (sep : Char) (s : String) : List String :=
  (splitCharAux sep [] s.toList).map fun cs => ⟨cs⟩

/-- Python `s.strip()`. -/
def pyStrip (s : String) : String :=
  ⟨((s.toList.dropWhile pySpace).reverse.dropWhile pySpace).reverse⟩

/-- Occurrence test for `pat` inside a char list (helper for Python `in`). -/
def containsAux (pat : List Char) : List Char → Bool
  | [] => pat.isPrefixOf []
  | c :: rest => pat.isPrefixOf (c :: rest) || containsAux pat rest

/-- Python `sep.join(parts)`. -/
def pyJoin (sep : String) (parts : List String) : String :=
  ⟨List.intercalate sep.toList (parts.map String.toList)⟩

/-- Python `s.replace(a, b)` for one-char `a` and `b`. -/
def pyReplaceChar (a b : Char) (s : String) : String :=
  ⟨s.toList.map fun c => if c = a then b else c⟩

/-- Python `s.endswith(pat)`. -/
def pyEndsWith (s pat : String) : Bool :=
  pat.toList.isSuffixOf s.toList

/-- Python `float(s)` on a string, modelled for plain decimal literals
(optional sign, digits, optional decimal point): `none` means the Python
call raises `ValueError`. -/
def strToFloat? (s : String) : Option ℚ :=
  let cs := (pyStrip s).toList
  let signed : ℚ × List Char :=
    match cs with
    | '-' :: rest => (-1, rest)
    | '+' :: rest => (1, rest)
    | _ => (1, cs)
  match splitCharAux '.' [] signed.2 with
  | [ip] =>
    if ip ≠ [] ∧ ip.all Char.isDigit then some (signed.1 * natOfDigits ip) else none
  | [ip, fp] =>
    if (ip ++ fp) ≠ [] ∧ (ip ++ fp).all Char.isDigit then
      some (signed.1 * ((natOfDigits ip : ℚ) + (natOfDigits fp : ℚ) / ((10 : ℚ) ^ fp.length)))
    else none
  | _ => none

/-- Python `float(v)`: succeeds on ints, floats and numeric strings; raises
(`none`) on `None` and non-numeric strings. -/
def pyFloat? : PyVal → Option ℚ
  | .vint n => some (n : ℚ)
  | .vfloat q => some q
  | .vstr s => strToFloat? s
  | .vnone => none

/-- Pydantic `str` field validation: accepts exactly strings. -/
def pyStr? : PyVal → Option String
  | .vstr s => some s
  | _ => none

/-- `d.get(key)` on an insertion-ordered Python dict (association list). -/
def dictGet? {α : Type} : List (String × α) → String → Option α
  | [], _ => none
  | (k, v) :: rest, key => if k = key then some v else dictGet? rest key

/-- `key in d` on a Python dict. -/
def dictHasKey {α : Type} (d : List (String × α)) (key : String) : Bool :=
  (dictGet? d key).isSome

/-- `d[key] = val` on an insertion-ordered Python dict: overwrite in place if
the key exists, else append at the end. -/
def dictSet {α : Type} : List (String × α) → String → α → List (String × α)
  | [], key, val => [(key, val)]
  | (k, v) :: rest, key, val =>
    if k = key then (k, val) :: rest else (k, v) :: dictSet rest key val

/-- `d.pop(key, default)`'s effect on the dict: every binding of `key` is
removed, all other bindings keep their order. -/
def dictPop {α : Type} (d : List (String × α)) (key : String) : List (String × α) :=
  d.filter (fun kv => kv.1 ≠ key)

/-- Python list slicing `l[:limit]` with a possibly negative `limit`. -/
def pySlice {α : Type} (limit : Int) (l : List α) : List α :=
  if 0 ≤ limit then l.take limit.toNat
  else l.take (l.length - limit.natAbs)

/-- `pat in line` for Python strings (substring containment). -/
def strContainsSub (line pat : String) : Bool :=
  containsAux pat.toList line.toList

/-- `StandardizedRecord` pydantic model from `providers.py`: `parameter`,
`timestamp` and `source` are required, the rest default to `None`.
The `timestamp` is kept as the ISO string handed to `datetime.fromisoformat`. -/
structure StandardizedRecord where
  latitude : Option ℚ := none
  longitude : Option ℚ := none
  station : Option String := none
  parameter : String
  value : PyVal := .vnone
  timestamp : String
  source : String
  deriving DecidableEq, Repr

/-! ## Weather-marine adapter (`fetch_open_meteo`, providers.py lines 23-61) -/

/-- Payload of `fetch_open_meteo`: `payload.get("latitude")`,
`payload.get("longitude")`, `payload.get("hourly", [...])`. -/
structure MeteoPayload where
  latitude : Option ℚ := none
  longitude : Option ℚ := none
  hourly : Option (List String) := none
  deriving Repr

/-- The `hourly` object of the Open-Meteo JSON response: the shared `time`
series plus one value series per parameter name. -/
structure MeteoHourly where
  time : List String := []
  series : List (String × List PyVal) := []
  deriving Repr

/-- Open-Meteo JSON response body; `data.get("hourly", {})` defaults to an
empty object. -/
structure MeteoResp where
  hourly : Option MeteoHourly := none
  deriving Repr

/-- Inner loop of `fetch_open_meteo`: `for t, v in zip(timestamps, values)`,
skipping `None` values (`if v is None: continue`), else appending one
`StandardizedRecord`. -/
def meteoRecords (lat lon : Option ℚ) (param : String) :
    List (String × PyVal) → List StandardizedRecord
  | [] => []
  | (t, v) :: rest =>
    if v = .vnone then meteoRecords lat lon param rest
    else { latitude := lat, longitude := lon, parameter := param, value := v,
           timestamp := t, source := "open-meteo" } :: meteoRecords lat lon param rest

/-- `fetch_open_meteo(payload)` given the upstream response `data` (the HTTP
call itself is the out-of-scope collaborator): joins the requested hourly
parameters with commas, re-splits, and zips each parameter's series against
the shared timestamps. -/
def fetch_open_meteo (payload : MeteoPayload) (data : MeteoResp) :
    List StandardizedRecord :=
  let hourlyJoined :=
    pyJoin "," (payload.hourly.getD ["wave_height", "sea_surface_temperature"])
  let hourlyObj := data.hourly.getD {}
  let timestamps := hourlyObj.time
  (pySplit ',' hourlyJoined).flatMap fun param =>
    meteoRecords payload.latitude payload.longitude param
      (timestamps.zip ((dictGet? hourlyObj.series param).getD []))

/-! ## Errors and the dispatcher (`ingest`, main.py lines 52-65) -/

/-- An exception escaping an adapter: either a `fastapi.HTTPException`
(status code plus detail) or any other Python exception (its message). -/
inductive AdapterErr where
  | http (status : Nat) (detail : String)
  | exc (msg : String)
  deriving DecidableEq, Repr

/-- Python `str(e)`: starlette's `HTTPException.__str__` is
`f"{status_code}: {detail}"`; other exceptions stringify to their message. -/
def AdapterErr.toMsg : AdapterErr → String
  | .http s d => toString s ++ ": " ++ d
  | .exc m => m

/-- The `HTTPException` the endpoint ultimately raises to the HTTP layer. -/
structure HttpErr where
  status : Nat
  detail : String
  deriving DecidableEq, Repr

/-- The endpoint's success body `{"status": "success", "records": records}`. -/
structure IngestResult (α : Type) where
  status : String
  records : List α
  deriving DecidableEq, Repr

/-- `ingest(req)` from main.py, generic in the registry: look the provider up
in `PROVIDERS`; unknown names raise `HTTPException(400)`; otherwise run the
adapter inside `try`, extend the module-level `database` with the returned
records on success, and turn ANY exception `e` (including an adapter-raised
`HTTPException`) into `HTTPException(500, f"Ingestion failed: {e}")`.
Returns the response (or error) together with the post-call store. -/
def ingest {γ α : Type} (providers : String → Option (γ → Except AdapterErr (List α)))
    (database : List α) (provider : String) (payload : γ) :
    Except HttpErr (IngestResult α) × List α :=
  match providers provider with
  | none => (.error ⟨400, "Unknown provider: " ++ provider⟩, database)
  | some adapter =>
    match adapter payload with
    | .ok records => (.ok ⟨"success", records⟩, database ++ records)
    | .error e => (.error ⟨500, "Ingestion failed: " ++ e.toMsg⟩, database)

/-! ## Tide-station adapter (`fetch_noaa`, providers.py lines 64-145) -/

/-- The fixed `VALID_PRODUCTS` set of `fetch_noaa`. -/
def VALID_PRODUCTS : List String :=
  ["water_level", "water_temperature", "air_temperature", "wind", "air_pressure",
   "visibility", "humidity", "conductivity", "salinity", "currents", "predictions",
   "hourly_height", "high_low", "monthly_mean", "daily_max_min", "six_minute"]

/-- Payload of `fetch_noaa`; `station = some ""` models a present-but-empty
station string (also rejected by Python's `if not station`). -/
structure NoaaPayload where
  station : Option String := none
  product : Option String := none
  date : Option String := none
  range : Option String := none
  begin_date : Option String := none
  end_date : Option String := none
  deriving DecidableEq, Repr

/-- One entry of the NOAA response's `data` list: a `"t"` time string and a
`"v"` value. -/
structure NoaaPoint where
  t : String
  v : PyVal
  deriving DecidableEq, Repr

/-- Station coordinates as read from response metadata (`meta.get("lat")`,
`meta.get("lon")`); floats per the upstream schema. -/
structure NoaaMeta where
  lat : Option ℚ := none
  lon : Option ℚ := none
  deriving DecidableEq, Repr

/-- NOAA datagetter JSON body: `data` list (absent key modelled `none`) and
inline `metadata` (`none` models an absent or empty — falsy — dict). -/
structure NoaaResp where
  data : Option (List NoaaPoint) := none
  metadata : Option NoaaMeta := none
  deriving DecidableEq, Repr

/-- The external world seen by one `fetch_noaa` call: the datagetter response
and the best-effort station-metadata lookup (`none` models that secondary
request raising; the exception is suppressed and coordinates stay null). -/
structure NoaaNet where
  resp : NoaaResp
  stationLookup : Option NoaaMeta
  deriving DecidableEq, Repr

/-- The `for item in data["data"]` loop of `fetch_noaa`: each point's `"t"` is
space-to-`T` normalized (the `datetime` parse keeps that string) and its `"v"`
goes through `float(...)`, whose failure raises out of the adapter. -/
def noaaPoints (station : String) (lat lon : Option ℚ) (product : String) :
    List NoaaPoint → Except AdapterErr (List StandardizedRecord)
  | [] => .ok []
  | pt :: rest =>
    match pyFloat? pt.v with
    | none => .error (.exc "could not convert value to float")
    | some q =>
      match noaaPoints station lat lon product rest with
      | .error e => .error e
      | .ok recs =>
        .ok ({ station := some station, latitude := lat, longitude := lon,
               parameter := product, value := .vfloat q,
               timestamp := pyReplaceChar ' ' 'T' pt.t, source := "NOAA" } :: recs)

/-- `fetch_noaa(payload)` given the external world `net`. The second component
counts the external HTTP requests performed: 0 when validation fails, 1 for
the datagetter call, 2 when the secondary metadata lookup is also attempted. -/
def fetch_noaa (payload : NoaaPayload) (net : NoaaNet) :
    Except AdapterErr (List StandardizedRecord) × Nat :=
  if payload.station.getD "" = "" then
    (.error (.http 400 "Missing 'station' in payload"), 0)
  else
    let station := payload.station.getD ""
    let product := payload.product.getD "water_temperature"
    if product ∉ VALID_PRODUCTS then
      (.error (.http 400 ("Unsupported NOAA product: " ++ product)), 0)
    else
      match net.resp.data with
      | none => (.error (.http 404 "No data found from NOAA"), 1)
      | some [] => (.error (.http 404 "No data found from NOAA"), 1)
      | some pts =>
        match net.resp.metadata with
        | some meta => (noaaPoints station meta.lat meta.lon product pts, 1)
        | none =>
          let meta := net.stationLookup.getD {}
          (noaaPoints station meta.lat meta.lon product pts, 2)

/-- The registry entry wiring `"noaa"` into the endpoint, with the external
world fixed to `net`; every other name is unregistered. -/
def noaaRegistry (net : NoaaNet) :
    String → Option (NoaaPayload → Except AdapterErr (List StandardizedRecord)) :=
  fun name => if name = "noaa" then some (fun p => (fetch_noaa p net).1) else none

/-! ## Species-occurrence adapter (`fetch_obis`, providers.py lines 148-191) -/

/-- Payload of `fetch_obis`. -/
structure ObisPayload where
  endpoint : Option String := none
  params : Option (List (String × PyVal)) := none
  deriving Repr

/-- One occurrence item of the OBIS response (`item.get(...)` fields; `cls`
stands for the Python key `"class"`, a Lean keyword). -/
structure ObisItem where
  decimalLatitude : Option PyVal := none
  decimalLongitude : Option PyVal := none
  scientificName : Option PyVal := none
  taxonRank : Option PyVal := none
  family : Option PyVal := none
  order : Option PyVal := none
  cls : Option PyVal := none
  basisOfRecord : Option PyVal := none
  depth : Option PyVal := none
  eventDate : Option PyVal := none
  deriving DecidableEq, Repr

/-- OBIS JSON body: items live under `"results"`, falling back to `"data"`. -/
structure ObisResp where
  results : Option (List ObisItem) := none
  data : Option (List ObisItem) := none
  deriving DecidableEq, Repr

/-- The bespoke record dict built by `fetch_obis` (`None` modelled as the
`Option`/`PyVal.vnone` defaults of the item fields). -/
structure ObisRecord where
  latitude : Option PyVal
  longitude : Option PyVal
  species : Option PyVal
  taxonRank : Option PyVal
  family : Option PyVal
  order : Option PyVal
  cls : Option PyVal
  basisOfRecord : Option PyVal
  depth : Option PyVal
  eventDate : Option PyVal
  timestamp : String
  source : String
  deriving DecidableEq, Repr

/-- `fetch_obis(payload)` given the upstream response and the ingestion-time
`datetime.now().isoformat()` string `now`: every item of
`data.get("results", data.get("data", []))` becomes exactly one record. -/
def fetch_obis (payload : ObisPayload) (resp : ObisResp) (now : String) :
    List ObisRecord :=
  let endpoint := payload.endpoint.getD "occurrence"
  let items := resp.results.getD (resp.data.getD [])
  items.map fun item =>
    { latitude := item.decimalLatitude, longitude := item.decimalLongitude,
      species := item.scientificName, taxonRank := item.taxonRank,
      family := item.family, order := item.order, cls := item.cls,
      basisOfRecord := item.basisOfRecord, depth := item.depth,
      eventDate := item.eventDate, timestamp := now,
      source := "obis/" ++ endpoint }

/-! ## Taxonomic-registry adapter (`fetch_worms`, providers.py lines 194-251) -/

/-- Python `int(s)` on a string: optional sign plus digits. -/
def strToInt? (s : String) : Option Int :=
  let cs := s.trim.toList
  match cs with
  | '-' :: rest =>
    if rest ≠ [] ∧ rest.all Char.isDigit then some (-(natOfDigits rest : Int)) else none
  | '+' :: rest =>
    if rest ≠ [] ∧ rest.all Char.isDigit then some (natOfDigits rest : Int) else none
  | _ =>
    if cs ≠ [] ∧ cs.all Char.isDigit then some (natOfDigits cs : Int) else none

/-- Python `int(v)`: ints pass through, floats truncate toward zero, integer
strings parse; `None` and other strings raise (`none`). -/
def pyInt? : PyVal → Option Int
  | .vint n => some n
  | .vfloat q => some (if 0 ≤ q then ⌊q⌋ else ⌈q⌉)
  | .vstr s => strToInt? s
  | .vnone => none

/-- Payload of `fetch_worms`. -/
structure WormsPayload where
  endpoint : Option String := none
  params : Option (List (String × PyVal)) := none
  limit : Option Int := none
  deriving Repr

/-- One WoRMS record object (`item.get(...)` fields; `cls` stands for the
Python key `"class"`). -/
structure WormsItem where
  AphiaID : Option PyVal := none
  scientificname : Option PyVal := none
  rank : Option PyVal := none
  status : Option PyVal := none
  valid_name : Option PyVal := none
  valid_AphiaID : Option PyVal := none
  kingdom : Option PyVal := none
  phylum : Option PyVal := none
  cls : Option PyVal := none
  order : Option PyVal := none
  family : Option PyVal := none
  genus : Option PyVal := none
  deriving DecidableEq, Repr

/-- The three JSON shapes the WoRMS API returns: a bare integer, a single
object, or a list of objects. -/
inductive WormsResp where
  | int (n : Int)
  | obj (d : WormsItem)
  | list (l : List WormsItem)
  deriving Repr

/-- The full taxonomic record dict built per item by `fetch_worms`. -/
structure WormsFullRecord where
  aphiaID : Option PyVal
  scientificName : Option PyVal
  rank : Option PyVal
  status : Option PyVal
  valid_name : Option PyVal
  valid_AphiaID : Option PyVal
  kingdom : Option PyVal
  phylum : Option PyVal
  cls : Option PyVal
  order : Option PyVal
  family : Option PyVal
  genus : Option PyVal
  timestamp : String
  source : String
  deriving DecidableEq, Repr

/-- A record emitted by `fetch_worms`: either the three-key dict built for a
bare-integer response, or the full taxonomic dict built per list item. -/
inductive WormsRecord where
  | idOnly (aphiaID : Int) (timestamp : String) (source : String)
  | full (r : WormsFullRecord)
  deriving DecidableEq, Repr

/-- The id field of a `fetch_worms` record (`"aphiaID"` key in both shapes). -/
def WormsRecord.idField : WormsRecord → Option PyVal
  | .idOnly n _ _ => some (.vint n)
  | .full r => r.aphiaID

/-- Source tag of a `fetch_worms` record. -/
def WormsRecord.sourceField : WormsRecord → String
  | .idOnly _ _ s => s
  | .full r => r.source

/-- Ingestion timestamp of a `fetch_worms` record (`"timestamp"` key in both
shapes). -/
def WormsRecord.timestampField : WormsRecord → String
  | .idOnly _ t _ => t
  | .full r => r.timestamp

/-- The per-item mapping of `fetch_worms`'s record loop. -/
def wormsItemToRecord (now endpoint : String) (item : WormsItem) : WormsRecord :=
  .full { aphiaID := item.AphiaID, scientificName := item.scientificname,
          rank := item.rank, status := item.status, valid_name := item.valid_name,
          valid_AphiaID := item.valid_AphiaID, kingdom := item.kingdom,
          phylum := item.phylum, cls := item.cls, order := item.order,
          family := item.family, genus := item.genus, timestamp := now,
          source := "worms/" ++ endpoint }

/-- `fetch_worms(payload)` given the upstream response `resp` and the
ingestion time `now`. The URL branch (`"scientificname" in params`, else
`"AphiaID" in params`, else `raise ValueError`) runs before the external
call; afterwards a bare integer short-circuits into one id-only record, a
dict is wrapped into a one-element list, and `data[:limit]` truncates. -/
def fetch_worms (payload : WormsPayload) (resp : WormsResp) (now : String) :
    Except AdapterErr (List WormsRecord) :=
  let endpoint := payload.endpoint.getD "AphiaRecordsByName"
  let params := payload.params.getD []
  let limit := payload.limit.getD 100
  if dictHasKey params "scientificname" ∨ dictHasKey params "AphiaID" then
    .ok (match resp with
      | .int n => [.idOnly n now ("worms/" ++ endpoint)]
      | .obj d => (pySlice limit [d]).map (wormsItemToRecord now endpoint)
      | .list l => (pySlice limit l).map (wormsItemToRecord now endpoint))
  else
    .error (.exc "WoRMS requires either 'scientificname' or 'AphiaID' in params")

/-! ## Barcode-registry adapter (`fetch_bold`, providers.py lines 254-293) -/

/-- Payload of `fetch_bold`. -/
structure BoldPayload where
  endpoint : Option String := none
  params : Option (List (String × PyVal)) := none
  deriving Repr

/-- One BOLD specimen object; `id` is the key injected by the dict-shaped
response branch (`val["id"] = key`), unread by the final mapping. -/
structure BoldItem where
  id : Option String := none
  processid : Option PyVal := none
  species_name : Option PyVal := none
  lat : Option PyVal := none
  lon : Option PyVal := none
  marker : Option PyVal := none
  genbank_accession : Option PyVal := none
  deriving DecidableEq, Repr

/-- BOLD response: either a dict of id → value (where only dict-valued
entries — `some item` — are kept) or a plain list of objects. -/
inductive BoldResp where
  | dict (entries : List (String × Option BoldItem))
  | list (l : List BoldItem)
  deriving Repr

/-- Record dict built per surviving item by `fetch_bold`. -/
structure BoldRecord where
  processid : Option PyVal
  species_name : Option PyVal
  lat : Option PyVal
  lon : Option PyVal
  marker : Option PyVal
  genbank_accession : Option PyVal
  timestamp : String
  source : String
  deriving DecidableEq, Repr

/-- `fetch_bold(payload)` given upstream response `resp` and ingestion time
`now`. `params.pop("limit", 20)` mutates the caller's own `params` dict
before anything can fail, so the post-call state of that dict is returned as
the second component in every case (the payload's other keys are only read,
never written). -/
def fetch_bold (payload : BoldPayload) (resp : BoldResp) (now : String) :
    Except AdapterErr (List BoldRecord) × List (String × PyVal) :=
  let endpoint := payload.endpoint.getD "specimen"
  let params := payload.params.getD []
  let popped := dictGet? params "limit"
  let paramsAfter := dictPop params "limit"
  match pyInt? (popped.getD (.vint 20)) with
  | none => (.error (.exc "invalid literal for int()"), paramsAfter)
  | some limit =>
    let records : List BoldItem :=
      match resp with
      | .dict entries =>
        entries.filterMap fun kv =>
          match kv.2 with
          | some item => some { item with id := some kv.1 }
          | none => none
      | .list l => l
    (.ok ((pySlice limit records).map fun item =>
      { processid := item.processid, species_name := item.species_name,
        lat := item.lat, lon := item.lon, marker := item.marker,
        genbank_accession := item.genbank_accession, timestamp := now,
        source := "bold/" ++ endpoint }), paramsAfter)

/-! ## Government-statistics adapter (`fetch_fisheries`, providers.py
lines 306-338) -/

/-- One item of a data.gov.in `records` page (`item.get(...)` fields,
`none` = key absent, so the literal defaults `"N/A"` / `0` apply). -/
structure FishItem where
  financial_year : Option PyVal := none
  total_fish_production_lakh_tonnes : Option PyVal := none
  marine_fish_production_lakh_tonnes : Option PyVal := none
  inland_fish_production_lakh_tonnes : Option PyVal := none
  total_exports_crores : Option PyVal := none
  deriving DecidableEq, Repr

/-- The `FisheriesData` pydantic model from providers.py. -/
structure FisheriesData where
  year : String
  total_fish_production_lakh_tonnes : ℚ
  marine_fish_production_lakh_tonnes : ℚ
  inland_fish_production_lakh_tonnes : ℚ
  total_exports_crores : ℚ
  ingestion_timestamp : String
  source : String
  deriving DecidableEq, Repr

/-- The per-item `try` body of `fetch_fisheries`: coerce the four statistic
fields with `float(...)` (absent keys default to `0`) and validate the year
as a string (absent defaults to `"N/A"`); any failure (`none`) means the
`except: continue` drops this one item. -/
def coerceFishItem (now : String) (it : FishItem) : Option FisheriesData :=
  match pyFloat? (it.total_fish_production_lakh_tonnes.getD (.vint 0)),
        pyFloat? (it.marine_fish_production_lakh_tonnes.getD (.vint 0)),
        pyFloat? (it.inland_fish_production_lakh_tonnes.getD (.vint 0)),
        pyFloat? (it.total_exports_crores.getD (.vint 0)),
        pyStr? (it.financial_year.getD (.vstr "N/A")) with
  | some t, some m, some i, some e, some y =>
    some ⟨y, t, m, i, e, now, "data.gov.in"⟩
  | _, _, _, _, _ => none

/-- The `while True` pagination loop of `fetch_fisheries`: `upstream offset`
is the `records` list the upstream returns for that offset (a missing
`records` key is the empty list — both break the loop). The loop itself is
unbounded in the source; `fuel` merely bounds the embedding and is
discharged by the first-empty-page hypothesis in the theorems. -/
def fisheriesLoop (upstream : Nat → List FishItem) (now : String) :
    Nat → Nat → List FisheriesData
  | _, 0 => []
  | offset, fuel + 1 =>
    let page := upstream offset
    if page.isEmpty then []
    else page.filterMap (coerceFishItem now) ++
      fisheriesLoop upstream now (offset + 100) fuel

/-- `fetch_fisheries(payload, api_key)`: pagination starts at offset 0 with
page size 100 (the payload and key only shape the out-of-scope HTTP call). -/
def fetch_fisheries (upstream : Nat → List FishItem) (now : String)
    (fuel : Nat) : List FisheriesData :=
  fisheriesLoop upstream now 0 fuel

/-! ## PDF section segmentation (`split_sections`,
providers/fetch_cmfri.py lines 5-24) -/

/-- The five fixed heading keywords of `split_sections`. -/
def SECTION_PATTERNS : List String :=
  ["Introduction", "Methodology", "Results", "Discussion", "Conclusion"]

/-- `any(p in line for p in patterns)`. -/
def isHeading (line : String) : Bool :=
  SECTION_PATTERNS.any (fun p => strContainsSub line p)

/-- `" ".join(buffer).strip()`. -/
def joinStrip (buffer : List String) : String :=
  pyStrip (pyJoin " " buffer)

/-- The line loop of `split_sections` with its three pieces of state: the
section dict built so far, the current heading (`last`), and the pending
body lines (`buffer`). Note the source clears `buffer` only when flushing a
previous section, so lines seen before the first heading stay in `buffer`. -/
def splitLoop (sections : List (String × String)) (last : Option String)
    (buffer : List String) : List String → List (String × String)
  | [] =>
    match last with
    | none => sections
    | some k => dictSet sections k (joinStrip buffer)
  | line :: rest =>
    if isHeading line then
      match last with
      | none => splitLoop sections (some (pyStrip line)) buffer rest
      | some k =>
        splitLoop (dictSet sections k (joinStrip buffer)) (some (pyStrip line)) [] rest
    else
      splitLoop sections last (buffer ++ [line]) rest

/-- `split_sections(text)`. -/
def split_sections (text : String) : List (String × String) :=
  splitLoop [] none [] (pySplit '\n' text)

/-- Negation of `isHeading`, the body-line predicate. -/
def notHeading (line : String) : Bool := !(isHeading line)

/-- Modelled from the spec's segmentation wording (Stage 4), amended by the
behaviour on pre-heading lines: the heading-delimited chunks of a line list.
Each heading line opens a chunk keyed by its trimmed text whose body is the
space-join of the lines up to the next heading (or end of text); `pending`
carries lines not yet owned by any heading, which end up prepended to the
first chunk's body. Lines with no following heading are dropped. -/
def chunksAux : List String → List String → List (String × String)
  | _, [] => []
  | pending, line :: rest =>
    if isHeading line then
      (pyStrip line, joinStrip (pending ++ rest.takeWhile notHeading)) ::
        chunksAux [] (rest.dropWhile notHeading)
    else
      chunksAux (pending ++ [line]) rest
termination_by _ l => l.length
decreasing_by
  · have hle : ∀ l : List String, (l.dropWhile notHeading).length ≤ l.length := by
      intro l
      induction l with
      | nil => simp [List.dropWhile]
      | cons a l ih =>
        rw [List.dropWhile]
        cases notHeading a
        · simp
        · simpa using Nat.le_succ_of_le ih
    exact Nat.lt_succ_of_le (hle rest)
  · exact Nat.lt_succ_of_le (Nat.le_refl rest.length)

/-- Builds a Python dict from key/value pairs in order (later duplicate keys
overwrite in place). -/
def dictFold (start : List (String × String)) (l : List (String × String)) :
    List (String × String) :=
  l.foldl (fun d kv => dictSet d kv.1 kv.2) start

/-- Reference section map, following the spec's segmentation wording (with
the pre-heading amendment recorded at `chunksAux`). -/
def sectionsSpec (text : String) : List (String × String) :=
  dictFold [] (chunksAux [] (pySplit '\n' text))

/-! ## Report discovery (`scrape_technical_reports`,
tools/cmfritool.py lines 8-40) -/

/-- One parsed `<a href=...>` hyperlink: its target and its stripped text. -/
structure HtmlLink where
  href : String
  text : String
  deriving DecidableEq, Repr

/-- One iteration of the outer listing loop of `scrape_technical_reports`:
a link whose text contains `"Marine Fish Landings"` contributes the first
PDF-suffixed href of its record page (if any) and bumps `count`; any other
link leaves the accumulator untouched. `recordPage u` gives the hrefs found
on the record page at `u` (network + HTML parsing, out of scope); `join` is
`urljoin(EPRINTS_BASE, ·)`. -/
def scrapeStep (recordPage : String → List String) (join : String → String)
    (pdfLinks : List String) (count : Nat) (link : HtmlLink) :
    List String × Nat :=
  if strContainsSub link.text "Marine Fish Landings" then
    match (recordPage (join link.href)).find? (fun h => pyEndsWith h ".pdf") with
    | some h => (pdfLinks ++ [join h], count + 1)
    | none => (pdfLinks, count)
  else (pdfLinks, count)

/-- The outer `for link in soup.find_all("a")` loop of
`scrape_technical_reports`: after EVERY listing link (matching or not) the
loop stops when `count >= limit`. -/
def scrapeLoop (recordPage : String → List String) (join : String → String)
    (limit : Int) (pdfLinks : List String) (count : Nat) :
    List HtmlLink → List String
  | [] => pdfLinks
  | link :: rest =>
    if ((scrapeStep recordPage join pdfLinks count link).2 : Int) ≥ limit then
      (scrapeStep recordPage join pdfLinks count link).1
    else
      scrapeLoop recordPage join limit
        (scrapeStep recordPage join pdfLinks count link).1
        (scrapeStep recordPage join pdfLinks count link).2 rest

/-- `scrape_technical_reports(year, limit)` given the listing page's links
(the year only selects which listing page is fetched). -/
def scrape_technical_reports (listing : List HtmlLink)
    (recordPage : String → List String) (join : String → String)
    (limit : Int) : List String :=
  scrapeLoop recordPage join limit [] 0 listing

/-! ## PDF-report adapter (`fetch_cmfri`,
providers/fetch_cmfri.py lines 27-62) -/

/-- Payload of `fetch_cmfri`. -/
structure CmfriPayload where
  year : Option String := none
  limit : Option Int := none
  deriving Repr

/-- One discovered report with its pipeline artifacts: the absolute document
URL, the local path `download_pdf` wrote, the `extract_text` output and the
`extract_tables` output (rows kept opaque — third-party table structures). -/
structure CmfriDoc where
  url : String
  file : String
  text : String
  tables : List PyVal
  deriving Repr

/-- The per-document record dict built by `fetch_cmfri`. -/
structure CmfriRecord where
  provider : String
  year : String
  report_name : String
  source_url : String
  pages : Nat
  length_chars : Nat
  sections : List (String × String)
  tables : List PyVal
  deriving DecidableEq, Repr

/-- `fetch_cmfri(payload)` given the discovered documents and their extracted
artifacts (`docs` corresponds index-wise to the `pdf_links` the scraper
returned). `pages` is `text.count("\f") + 1`, embedded as the number of
form-feed-separated pieces. -/
def fetch_cmfri (payload : CmfriPayload) (docs : List CmfriDoc) :
    List CmfriRecord :=
  let year := payload.year.getD "2023"
  docs.map fun doc =>
    { provider := "cmfri_pdf", year := year,
      report_name := (pySplit '/' doc.file).getLastD "",
      source_url := doc.url,
      pages := (pySplit '\x0c' doc.text).length,
      length_chars := doc.text.length,
      sections := split_sections doc.text,
      tables := doc.tables }

/-! ## Shared helper lemmas -/

/-- A string with a nonempty left part stays nonempty under append. -/
theorem append_ne_empty (s t : String) (hs : s ≠ "") : s ++ t ≠ "" := by
  obtain ⟨sd⟩ := s
  obtain ⟨td⟩ := t
  intro h
  have hd : sd ++ td = [] := congrArg String.data h
  rcases List.append_eq_nil.mp hd with ⟨rfl, rfl⟩
  exact hs rfl

/-- Each record emitted by the inner loop of `fetch_open_meteo` carries the
input coordinates, the loop's parameter name, a non-`None` value, and the
`"open-meteo"` source. -/
theorem meteoRecords_mem (lat lon : Option ℚ) (param : String)
    (pairs : List (String × PyVal)) (r : StandardizedRecord)
    (hr : r ∈ meteoRecords lat lon param pairs) :
    r.latitude = lat ∧ r.longitude = lon ∧ r.parameter = param ∧
      r.value ≠ .vnone ∧ r.source = "open-meteo" := by
  induction pairs with
  | nil => simp [meteoRecords] at hr
  | cons tv rest ih =>
    obtain ⟨t, v⟩ := tv
    by_cases hv : v = .vnone
    · rw [meteoRecords, if_pos hv] at hr
      exact ih hr
    · rw [meteoRecords, if_neg hv] at hr
      rcases List.mem_cons.mp hr with h | h
      · subst h
        exact ⟨rfl, rfl, rfl, hv, rfl⟩
      · exact ih h

/-- The inner loop of `fetch_open_meteo` emits exactly one record per
non-`None` pair, in order: it is the filter of the zipped pairs followed by
the record constructor. -/
theorem meteoRecords_eq_filter (lat lon : Option ℚ) (param : String)
    (pairs : List (String × PyVal)) :
    meteoRecords lat lon param pairs =
      (pairs.filter (fun tv => tv.2 ≠ .vnone)).map
        (fun tv => { latitude := lat, longitude := lon, parameter := param,
                     value := tv.2, timestamp := tv.1, source := "open-meteo" }) := by
  induction pairs with
  | nil => simp [meteoRecords]
  | cons tv rest ih =>
    obtain ⟨t, v⟩ := tv
    by_cases hv : v = .vnone
    · simp [meteoRecords, hv, ih]
    · simp [meteoRecords, hv, ih]

/-! ## Theorems: section segmentation (C7, C8) -/

/-- The loop with a section open behaves like flushing that section (its body
being the buffer plus the non-heading lines up to the next heading) and then
chunking the remainder. -/
theorem splitLoop_some (ls : List String) : ∀ (S : List (String × String))
    (k : String) (B : List String),
    splitLoop S (some k) B ls =
      dictFold S ((k, joinStrip (B ++ ls.takeWhile notHeading)) ::
        chunksAux [] (ls.dropWhile notHeading)) := by
  induction ls with
  | nil => intro S k B; simp [splitLoop, dictFold, chunksAux]
  | cons line rest ih =>
    intro S k B
    by_cases h : isHeading line = true
    · have hnh : notHeading line = false := by simp [notHeading, h]
      simp only [splitLoop]
      rw [if_pos h, ih]
      simp [dictFold, chunksAux, h, hnh, List.takeWhile_cons, List.dropWhile_cons]
    · have hnh : notHeading line = true := by simp [notHeading, h]
      simp only [splitLoop]
      rw [if_neg h, ih]
      simp [List.takeWhile_cons, List.dropWhile_cons, hnh, List.append_assoc]

/-- The loop with no section open builds exactly the dict of the chunks of
the remaining lines, seeded with the pending buffer. -/
theorem splitLoop_none (ls : List String) : ∀ (S : List (String × String))
    (B : List String),
    splitLoop S none B ls = dictFold S (chunksAux B ls) := by
  induction ls with
  | nil => intro S B; simp [splitLoop, chunksAux, dictFold]
  | cons line rest ih =>
    intro S B
    by_cases h : isHeading line = true
    · simp only [splitLoop]
      rw [if_pos h, splitLoop_some]
      simp [chunksAux, h]
    · simp only [splitLoop]
      rw [if_neg h, ih]
      simp [chunksAux, h]

/-- A line list with no heading line yields no chunks. -/
theorem chunksAux_of_no_heading (ls : List String)
    (h : ∀ line ∈ ls, isHeading line = false) :
    ∀ pending, chunksAux pending ls = [] := by
  induction ls with
  | nil => intro pending; simp [chunksAux]
  | cons line rest ih =>
    intro pending
    have hline := h line (List.mem_cons_self line rest)
    simp only [chunksAux, hline, if_false]
    exact ih (fun l hl => h l (List.mem_cons_of_mem line hl)) _

/-- C7: section segmentation of `"Introduction\nfoo\nbar\nResults\nbaz"`
yields exactly the insertion-ordered map
`{"Introduction": "foo bar", "Results": "baz"}` (exact heading line as key,
body lines space-joined). -/
theorem split_sections_example :
    split_sections "Introduction\nfoo\nbar\nResults\nbaz" =
      [("Introduction", "foo bar"), ("Results", "baz")] := by decide

/-- C8 (amended): `split_sections` computes exactly the spec-side section
map `sectionsSpec` — each named section's body is the space-join of the
lines strictly between its heading line and the next heading line (or end
of text), EXCEPT that lines preceding the first heading line are prepended
to the first section's body (see `chunksAux`) — and a text none of whose
lines contains a heading keyword yields the empty section map. -/
theorem split_sections_spec (text : String) :
    split_sections text = sectionsSpec text ∧
    ((∀ line ∈ pySplit '\n' text, isHeading line = false) →
      split_sections text = []) := by
  constructor
  · exact splitLoop_none (pySplit '\n' text) [] []
  · intro h
    unfold split_sections
    rw [splitLoop_none]
    rw [chunksAux_of_no_heading _ h]
    rfl

/-- Witness for `split_sections_spec`: at `"foo\nbar"` (no heading keyword
anywhere) the section map is empty. -/
theorem split_sections_spec_witness : split_sections "foo\nbar" = [] :=
  (split_sections_spec "foo\nbar").2 (by decide)

/-- C8 counterexample: on `"junk\nIntroduction\nfoo"` the body stored under
`"Introduction"` is `"junk foo"` — it includes the line `"junk"`, which is
NOT strictly between the heading line and the next heading line, refuting
the claim that each body consists of exactly the lines strictly between
(which here would be `"foo"`). -/
theorem split_sections_prefix_counterexample :
    split_sections "junk\nIntroduction\nfoo" = [("Introduction", "junk foo")] ∧
    dictGet? (split_sections "junk\nIntroduction\nfoo") "Introduction" ≠
      some "foo" := by
  constructor
  · decide
  · decide

/-! ## Theorems: weather-marine adapter (C4) -/

/-- C4: for every input payload and upstream response, every emitted record's
latitude and longitude equal the INPUT coordinates (the response is never
consulted for them) and no emitted record has a `None` value; and the inner
loop emits exactly one record per non-`None` `(timestamp, value)` pair — a
null/missing pair is skipped without a record and, the function being total,
without raising. -/
theorem fetch_open_meteo_correct (payload : MeteoPayload) (data : MeteoResp) :
    (∀ r ∈ fetch_open_meteo payload data,
      r.latitude = payload.latitude ∧ r.longitude = payload.longitude ∧
        r.value ≠ .vnone) ∧
    (∀ (lat lon : Option ℚ) (param : String) (pairs : List (String × PyVal)),
      meteoRecords lat lon param pairs =
        (pairs.filter (fun tv => tv.2 ≠ .vnone)).map
          (fun tv => { latitude := lat, longitude := lon, parameter := param,
                       value := tv.2, timestamp := tv.1,
                       source := "open-meteo" })) := by
  constructor
  · intro r hr
    simp only [fetch_open_meteo, List.mem_flatMap] at hr
    obtain ⟨param, _, hr⟩ := hr
    obtain ⟨h1, h2, _, h4, _⟩ := meteoRecords_mem _ _ _ _ _ hr
    exact ⟨h1, h2, h4⟩
  · exact meteoRecords_eq_filter

/-- Witness for `fetch_open_meteo_correct`: a concrete run with one non-null
and one null value emits exactly the non-null record carrying the input
coordinates. -/
theorem fetch_open_meteo_correct_witness :
    ({ latitude := some 1, longitude := some 2, parameter := "h",
       value := .vint 5, timestamp := "t1",
       source := "open-meteo" } : StandardizedRecord).latitude = some 1 ∧
    meteoRecords (some 1) (some 2) "h" [("t1", .vint 5), ("t2", .vnone)] =
      [{ latitude := some 1, longitude := some 2, parameter := "h",
         value := .vint 5, timestamp := "t1", source := "open-meteo" }] := by
  have h := fetch_open_meteo_correct
    { latitude := some 1, longitude := some 2, hourly := some ["h"] }
    { hourly := some { time := ["t1", "t2"], series := [("h", [.vint 5, .vnone])] } }
  refine ⟨(h.1 _ (by decide)).1, ?_⟩
  rw [h.2 (some 1) (some 2) "h" [("t1", .vint 5), ("t2", .vnone)]]
  decide

/-! ## Theorems: tide-station errors through the endpoint (C1) -/

/-- C1 (code bug): the adapter itself does fail before any external call —
a payload without `station` or with an unsupported product yields an
`HTTPException(400)` with 0 external requests, and an upstream response with
no data points yields an `HTTPException(404)` — but invoked through the
ingestion endpoint these are NOT surfaced as 400/404: `ingest`'s blanket
`except Exception` catches the adapter's `HTTPException` and re-raises
HTTP 500 (`"Ingestion failed: ..."`). -/
theorem noaa_errors_surfaced_500 :
    (∀ net : NoaaNet, fetch_noaa {} net =
      (.error (.http 400 "Missing 'station' in payload"), 0)) ∧
    (∀ net : NoaaNet,
      fetch_noaa { station := some "8723214", product := some "bogus" } net =
        (.error (.http 400 "Unsupported NOAA product: bogus"), 0)) ∧
    (∀ sl : Option NoaaMeta,
      (fetch_noaa { station := some "8723214" }
        { resp := { data := some [], metadata := none },
          stationLookup := sl }).1 =
        .error (.http 404 "No data found from NOAA")) ∧
    (∀ (net : NoaaNet) (db : List StandardizedRecord),
      ingest (noaaRegistry net) db "noaa" {} =
        (.error ⟨500, "Ingestion failed: 400: Missing 'station' in payload"⟩,
          db)) ∧
    (∀ (sl : Option NoaaMeta) (db : List StandardizedRecord),
      ingest (noaaRegistry { resp := { data := some [], metadata := none },
                             stationLookup := sl })
          db "noaa" { station := some "8723214" } =
        (.error ⟨500, "Ingestion failed: 404: No data found from NOAA"⟩, db)) :=
  ⟨fun _ => rfl, fun _ => rfl, fun _ => rfl, fun _ _ => rfl, fun _ _ => rfl⟩

/-! ## Theorems: dispatcher store semantics (C3) -/

/-- C3: for every `ingest(provider, payload)` call — an unregistered provider
name leaves the store unchanged (HTTP 400); an adapter that raises leaves
the store unchanged (no partial commit, HTTP 500); an adapter returning `n`
records appends exactly those records at the tail of the store, growing it
by exactly `n`, and the call returns `{status: "success", records: ...}`. -/
theorem ingest_dispatch {γ α : Type}
    (providers : String → Option (γ → Except AdapterErr (List α)))
    (database : List α) (provider : String) (payload : γ) :
    (providers provider = none →
      ingest providers database provider payload =
        (.error ⟨400, "Unknown provider: " ++ provider⟩, database)) ∧
    (∀ f e, providers provider = some f → f payload = .error e →
      ingest providers database provider payload =
        (.error ⟨500, "Ingestion failed: " ++ e.toMsg⟩, database)) ∧
    (∀ f records, providers provider = some f → f payload = .ok records →
      ingest providers database provider payload =
        (.ok ⟨"success", records⟩, database ++ records) ∧
      (database ++ records).length = database.length + records.length) := by
  refine ⟨fun h => ?_, fun f e hf he => ?_, fun f records hf hok => ⟨?_, ?_⟩⟩
  · simp [ingest, h]
  · simp [ingest, hf, he]
  · simp [ingest, hf, hok]
  · exact List.length_append database records

/-- Witness for `ingest_dispatch`: all three branches at concrete registries,
stores and payloads. -/
theorem ingest_dispatch_witness :
    (ingest (fun _ => (none : Option (Unit → Except AdapterErr (List Nat))))
        [1, 2] "zzz" () =
      (.error ⟨400, "Unknown provider: " ++ "zzz"⟩, [1, 2])) ∧
    (ingest (fun n => if n = "q" then
        some (fun _ : Unit => (.error (.exc "boom") : Except AdapterErr (List Nat)))
      else none) [1, 2] "q" () =
      (.error ⟨500, "Ingestion failed: " ++ (AdapterErr.exc "boom").toMsg⟩,
        [1, 2])) ∧
    (ingest (fun n => if n = "p" then
        some (fun _ : Unit => (.ok [7] : Except AdapterErr (List Nat)))
      else none) [1, 2] "p" () =
      (.ok ⟨"success", [7]⟩, [1, 2] ++ [7])) :=
  ⟨(ingest_dispatch (fun _ => none) [1, 2] "zzz" ()).1 rfl,
   (ingest_dispatch _ [1, 2] "q" ()).2.1 _ (.exc "boom") rfl rfl,
   ((ingest_dispatch _ [1, 2] "p" ()).2.2 _ [7] rfl rfl).1⟩

/-! ## Theorems: government-statistics pagination (C5) -/

/-- The pagination loop started at page `j`: when page `k` is the first
empty page, the loop yields the per-page coerced records of pages
`j, j+1, ..., k-1` in order. -/
theorem fisheriesLoop_spec (upstream : Nat → List FishItem) (now : String)
    (k : Nat) (hempty : upstream (100 * k) = [])
    (hne : ∀ i, i < k → upstream (100 * i) ≠ []) :
    ∀ fuel j, j ≤ k → k - j < fuel →
      fisheriesLoop upstream now (100 * j) fuel =
        ((List.range' j (k - j)).map
          (fun i => (upstream (100 * i)).filterMap (coerceFishItem now))).flatten := by
  intro fuel
  induction fuel with
  | zero => intro j _ hf; omega
  | succ fuel ih =>
    intro j hj hf
    rcases eq_or_lt_of_le hj with rfl | hlt
    · simp only [fisheriesLoop]
      rw [if_pos (by simp [hempty])]
      simp
    · have hpage : upstream (100 * j) ≠ [] := hne j hlt
      simp only [fisheriesLoop]
      rw [if_neg (by simpa using hpage)]
      have hoff : 100 * j + 100 = 100 * (j + 1) := by ring
      rw [hoff, ih (j + 1) hlt (by omega)]
      have hrange : k - j = (k - (j + 1)) + 1 := by omega
      rw [hrange, List.range'_succ]
      simp

/-- C5: with page size 100 from offset 0 and `k` the index of the first
empty page (offsets 0, 100, ..., 100·k), the fetch returns exactly the
coerced items of the non-empty pages `0..k-1`, in page order and
within-page order, where each page's contribution is the `filterMap` of the
per-item coercion — an item whose numeric coercion fails is silently
dropped without truncating the rest of its page or aborting the fetch. -/
theorem fetch_fisheries_pagination (upstream : Nat → List FishItem)
    (now : String) (k fuel : Nat)
    (hempty : upstream (100 * k) = [])
    (hne : ∀ i, i < k → upstream (100 * i) ≠ [])
    (hfuel : k < fuel) :
    fetch_fisheries upstream now fuel =
      ((List.range k).map
        (fun i => (upstream (100 * i)).filterMap (coerceFishItem now))).flatten := by
  have h0 : (0 : Nat) = 100 * 0 := by ring
  unfold fetch_fisheries
  rw [h0, fisheriesLoop_spec upstream now k hempty hne fuel 0 (Nat.zero_le k)
    (by omega)]
  rw [List.range_eq_range']
  simp

/-- Witness for `fetch_fisheries_pagination`: three pages (page 3 empty), a
non-numeric statistic in page 1's second item: exactly the two coercible
records come back, in order, and the bad item is dropped without truncating
its page. -/
theorem fetch_fisheries_pagination_witness :
    fetch_fisheries
      (fun o => if o = 0 then
          [⟨some (.vstr "2019-20"), some (.vfloat 137), some (.vint 37), none,
            some (.vfloat 46)⟩,
           ⟨some (.vstr "2020-21"), some (.vstr "NA"), none, none, none⟩]
        else if o = 100 then [⟨none, none, none, none, none⟩] else [])
      "T0" 3 =
      [⟨"2019-20", 137, 37, 0, 46, "T0", "data.gov.in"⟩,
       ⟨"N/A", 0, 0, 0, 0, "T0", "data.gov.in"⟩] := by
  have h := fetch_fisheries_pagination
    (fun o => if o = 0 then
        [⟨some (.vstr "2019-20"), some (.vfloat 137), some (.vint 37), none,
          some (.vfloat 46)⟩,
         ⟨some (.vstr "2020-21"), some (.vstr "NA"), none, none, none⟩]
      else if o = 100 then [⟨none, none, none, none, none⟩] else [])
    "T0" 2 3 rfl (by decide) (by decide)
  rw [h]
  decide

/-! ## Theorems: taxonomic-registry response shapes (C6) -/

/-- C6: once the params check passes, a bare-integer response yields exactly
one record whose id field is that integer; a single-object response is
processed exactly as the one-element list response; a list response maps to
records after truncation to the first `limit` entries, `limit` defaulting
to 100 when the payload has no limit key. -/
theorem fetch_worms_shapes (payload : WormsPayload) (now : String)
    (hp : dictHasKey (payload.params.getD []) "scientificname" ∨
          dictHasKey (payload.params.getD []) "AphiaID") :
    (∀ n : Int, ∃ r, fetch_worms payload (.int n) now = .ok [r] ∧
      r.idField = some (.vint n)) ∧
    (∀ d, fetch_worms payload (.obj d) now = fetch_worms payload (.list [d]) now) ∧
    (∀ l, 0 ≤ payload.limit.getD 100 →
      fetch_worms payload (.list l) now =
        .ok ((l.take (payload.limit.getD 100).toNat).map
          (wormsItemToRecord now (payload.endpoint.getD "AphiaRecordsByName")))) ∧
    (payload.limit = none → payload.limit.getD 100 = 100) := by
  refine ⟨fun n => ?_, fun d => rfl, fun l hl => ?_, fun h => by simp [h]⟩
  · refine ⟨.idOnly n now ("worms/" ++ payload.endpoint.getD "AphiaRecordsByName"),
      ?_, rfl⟩
    simp only [fetch_worms]
    rw [if_pos hp]
  · simp only [fetch_worms]
    rw [if_pos hp]
    simp [pySlice, hl]

/-- Witness for `fetch_worms_shapes`: with a scientific-name param, the
bare-integer response `42` yields the single id-only record `42`, and a
two-element list response under the default limit 100 maps both items. -/
theorem fetch_worms_shapes_witness :
    (∃ r, fetch_worms ⟨none, some [("scientificname", .vstr "Chromis")], none⟩
        (.int 42) "T0" = .ok [r] ∧ r.idField = some (.vint 42)) ∧
    fetch_worms ⟨none, some [("scientificname", .vstr "Chromis")], none⟩
        (.list [{}, { AphiaID := some (.vint 7) }]) "T0" =
      .ok (([({} : WormsItem), { AphiaID := some (.vint 7) }].take 100).map
        (wormsItemToRecord "T0" "AphiaRecordsByName")) := by
  have h := fetch_worms_shapes
    ⟨none, some [("scientificname", .vstr "Chromis")], none⟩ "T0"
    (Or.inl (by decide))
  exact ⟨h.1 42, h.2.2.1 _ (by decide)⟩

/-! ## Theorems: report discovery limit (C9) -/

/-- Case split for one listing-loop iteration: either the accumulator is
untouched, or the link matched and exactly one joined PDF URL was appended
with the count bumped by one. -/
theorem scrapeStep_cases (rp : String → List String) (j : String → String)
    (pdfLinks : List String) (count : Nat) (link : HtmlLink) :
    scrapeStep rp j pdfLinks count link = (pdfLinks, count) ∨
    (strContainsSub link.text "Marine Fish Landings" = true ∧
      ∃ h, scrapeStep rp j pdfLinks count link = (pdfLinks ++ [j h], count + 1)) := by
  unfold scrapeStep
  by_cases hm : strContainsSub link.text "Marine Fish Landings" = true
  · rw [if_pos hm]
    cases hf : (rp (j link.href)).find? (fun h => pyEndsWith h ".pdf") with
    | none => exact Or.inl rfl
    | some h => exact Or.inr ⟨hm, h, rfl⟩
  · rw [if_neg hm]
    exact Or.inl rfl

/-- While the running count (kept equal to the number of collected URLs)
is below the limit, the loop never collects more than `limit` URLs. -/
theorem scrapeLoop_le_limit (rp : String → List String) (j : String → String)
    (limit : Int) :
    ∀ (ls : List HtmlLink) (pdfLinks : List String) (count : Nat),
      count = pdfLinks.length → (count : Int) < limit →
      ((scrapeLoop rp j limit pdfLinks count ls).length : Int) ≤ limit := by
  intro ls
  induction ls with
  | nil =>
    intro pdfLinks count hc hlt
    simp only [scrapeLoop]
    omega
  | cons link rest ih =>
    intro pdfLinks count hc hlt
    simp only [scrapeLoop]
    rcases scrapeStep_cases rp j pdfLinks count link with hstep | ⟨_, h, hstep⟩
    · rw [hstep]
      rw [if_neg (by omega)]
      exact ih pdfLinks count hc hlt
    · rw [hstep]
      by_cases hbreak : ((count + 1 : Nat) : Int) ≥ limit
      · rw [if_pos hbreak]
        simp only [List.length_append, List.length_cons, List.length_nil]
        omega
      · rw [if_neg hbreak]
        exact ih (pdfLinks ++ [j h]) (count + 1) (by simp [hc]) (by omega)

/-- The loop collects at most one URL per matching listing link. -/
theorem scrapeLoop_le_matches (rp : String → List String) (j : String → String)
    (limit : Int) :
    ∀ (ls : List HtmlLink) (pdfLinks : List String) (count : Nat),
      (scrapeLoop rp j limit pdfLinks count ls).length ≤
        pdfLinks.length +
          (ls.filter (fun l => strContainsSub l.text "Marine Fish Landings")).length := by
  intro ls
  induction ls with
  | nil =>
    intro pdfLinks count
    simp [scrapeLoop]
  | cons link rest ih =>
    intro pdfLinks count
    simp only [scrapeLoop]
    have hfle : (rest.filter
        (fun l => strContainsSub l.text "Marine Fish Landings")).length ≤
        ((link :: rest).filter
          (fun l => strContainsSub l.text "Marine Fish Landings")).length := by
      rw [List.filter_cons]
      split
      · exact Nat.le_succ _
      · exact Nat.le_refl _
    rcases scrapeStep_cases rp j pdfLinks count link with hstep | ⟨hm, h, hstep⟩
    · rw [hstep]
      by_cases hbreak : ((count : Int) ≥ limit)
      · rw [if_pos hbreak]
        exact Nat.le_add_right _ _
      · rw [if_neg hbreak]
        exact le_trans (ih pdfLinks count) (Nat.add_le_add_left hfle _)
    · rw [hstep]
      have hfil : ((link :: rest).filter
          (fun l => strContainsSub l.text "Marine Fish Landings")).length =
          (rest.filter (fun l => strContainsSub l.text "Marine Fish Landings")).length
            + 1 := by
        rw [List.filter_cons]
        simp [hm]
      by_cases hbreak : ((count + 1 : Nat) : Int) ≥ limit
      · rw [if_pos hbreak, hfil]
        simp only [List.length_append, List.length_cons, List.length_nil]
        omega
      · rw [if_neg hbreak, hfil]
        have hrec := ih (pdfLinks ++ [j h]) (count + 1)
        simp only [List.length_append, List.length_cons, List.length_nil] at hrec ⊢
        omega

/-- C9 (amended): for every listing page, record-page resolver, URL joiner
and limit — when `limit ≥ 1`, discovery collects at most `limit` document
URLs (it stops as soon as `limit` are collected); and regardless of limit,
at most one document URL is collected per matching record page (the result
never exceeds the number of matching listing links). For `limit ≤ 0` the
bound fails, see the counterexample. -/
theorem scrape_limit_bound (listing : List HtmlLink)
    (rp : String → List String) (j : String → String) (limit : Int) :
    (1 ≤ limit →
      ((scrape_technical_reports listing rp j limit).length : Int) ≤ limit) ∧
    (scrape_technical_reports listing rp j limit).length ≤
      (listing.filter (fun l => strContainsSub l.text "Marine Fish Landings")).length := by
  constructor
  · intro h1
    exact scrapeLoop_le_limit rp j limit listing [] 0 rfl (by omega)
  · simpa using scrapeLoop_le_matches rp j limit listing [] 0

/-- Witness for `scrape_limit_bound`: two matching listing links under
`limit = 1` yield at most one (in fact exactly one) document URL. -/
theorem scrape_limit_bound_witness :
    ((scrape_technical_reports
        [⟨"r1", "Marine Fish Landings 2023"⟩, ⟨"r2", "Marine Fish Landings 2022"⟩]
        (fun _ => ["d.pdf"]) (fun s => s) 1).length : Int) ≤ 1 :=
  (scrape_limit_bound
    [⟨"r1", "Marine Fish Landings 2023"⟩, ⟨"r2", "Marine Fish Landings 2022"⟩]
    (fun _ => ["d.pdf"]) (fun s => s) 1).1 (by decide)

/-- C9 counterexample: with `limit = 0` and a matching first listing link,
the `count >= limit` check runs only AFTER the link is processed, so one
document URL is still collected — more than the claimed `limit` of 0. -/
theorem scrape_limit_zero_counterexample :
    scrape_technical_reports [⟨"rec1", "Marine Fish Landings 2023"⟩]
        (fun _ => ["doc.pdf"]) (fun h => "https://eprints.cmfri.org.in/" ++ h) 0 =
      ["https://eprints.cmfri.org.in/doc.pdf"] ∧
    ¬ (((scrape_technical_reports [⟨"rec1", "Marine Fish Landings 2023"⟩]
        (fun _ => ["doc.pdf"]) (fun h => "https://eprints.cmfri.org.in/" ++ h)
        0).length : Int) ≤ 0) := by
  constructor
  · decide
  · decide

/-! ## Theorems: barcode-registry params mutation (C10) -/

/-- After popping `key`, looking it up yields nothing. -/
theorem dictGet?_dictPop_self {α : Type} (d : List (String × α)) (k : String) :
    dictGet? (dictPop d k) k = none := by
  induction d with
  | nil => rfl
  | cons kv rest ih =>
    by_cases h : kv.1 = k
    · simpa [dictPop, List.filter_cons, h] using ih
    · simpa [dictPop, List.filter_cons, h, dictGet?] using ih

/-- Popping `key` leaves every other key's binding unchanged. -/
theorem dictGet?_dictPop_ne {α : Type} (d : List (String × α))
    (k k' : String) (h : k' ≠ k) :
    dictGet? (dictPop d k) k' = dictGet? d k' := by
  induction d with
  | nil => rfl
  | cons kv rest ih =>
    obtain ⟨ka, va⟩ := kv
    by_cases hkv : ka = k
    · have h1 : dictPop ((ka, va) :: rest) k = dictPop rest k := by
        simp [dictPop, List.filter_cons, hkv]
      have h2 : dictGet? ((ka, va) :: rest) k' = dictGet? rest k' := by
        rw [dictGet?, if_neg]
        intro hh
        exact h (hh.symm.trans hkv)
      rw [h1, h2]
      exact ih
    · have h1 : dictPop ((ka, va) :: rest) k = (ka, va) :: dictPop rest k := by
        simp [dictPop, List.filter_cons, hkv]
      rw [h1, dictGet?, dictGet?]
      by_cases hk' : ka = k'
      · rw [if_pos hk', if_pos hk']
      · rw [if_neg hk', if_neg hk']
        exact ih

/-- The post-call state of the caller's `params` dict is its `"limit"`-popped
version, whether or not `int(...)` subsequently raises. -/
theorem fetch_bold_params_after (payload : BoldPayload) (resp : BoldResp)
    (now : String) :
    (fetch_bold payload resp now).2 = dictPop (payload.params.getD []) "limit" := by
  simp only [fetch_bold]
  cases hq : pyInt? ((dictGet? (payload.params.getD []) "limit").getD (.vint 20)) <;>
    simp [hq]

/-- C10: for every call whose payload carries a `params` mapping containing a
`"limit"` key, after the call that key is absent from the caller's own
`params` mapping — `params.pop("limit", 20)` mutates it in place before the
external call — while every other key of `params` keeps its binding (and the
payload's other entries are only ever read). -/
theorem fetch_bold_pops_limit (payload : BoldPayload) (resp : BoldResp)
    (now : String) (params0 : List (String × PyVal))
    (hp : payload.params = some params0)
    (_hk : dictHasKey params0 "limit" = true) :
    dictGet? (fetch_bold payload resp now).2 "limit" = none ∧
    ∀ k, k ≠ "limit" →
      dictGet? (fetch_bold payload resp now).2 k = dictGet? params0 k := by
  have hsnd : (fetch_bold payload resp now).2 = dictPop params0 "limit" := by
    rw [fetch_bold_params_after, hp]
    rfl
  rw [hsnd]
  exact ⟨dictGet?_dictPop_self params0 "limit",
    fun k hk' => dictGet?_dictPop_ne params0 "limit" k hk'⟩

/-- Witness for `fetch_bold_pops_limit`: a concrete params dict with `limit`
and `taxon` keys — afterwards `limit` is gone and `taxon` is untouched. -/
theorem fetch_bold_pops_limit_witness :
    dictGet? (fetch_bold ⟨none, some [("limit", .vint 5), ("taxon", .vstr "Gadus")]⟩
        (.list []) "T0").2 "limit" = none ∧
    dictGet? (fetch_bold ⟨none, some [("limit", .vint 5), ("taxon", .vstr "Gadus")]⟩
        (.list []) "T0").2 "taxon" = some (.vstr "Gadus") := by
  have h := fetch_bold_pops_limit
    ⟨none, some [("limit", .vint 5), ("taxon", .vstr "Gadus")]⟩ (.list []) "T0"
    [("limit", .vint 5), ("taxon", .vstr "Gadus")] rfl (by decide)
  exact ⟨h.1, (h.2 "taxon" (by decide)).trans (by decide)⟩

/-! ## Theorems: cross-provider source/timestamp invariant (C2) -/

/-- Records built by `fetch_noaa`'s data loop all carry the `"NOAA"` source. -/
theorem noaaPoints_src (station : String) (lat lon : Option ℚ)
    (product : String) :
    ∀ (pts : List NoaaPoint) (recs : List StandardizedRecord)
      (r : StandardizedRecord),
      noaaPoints station lat lon product pts = .ok recs → r ∈ recs →
      r.source = "NOAA" := by
  intro pts
  induction pts with
  | nil =>
    intro recs r hok hr
    simp only [noaaPoints] at hok
    cases hok
    simp at hr
  | cons pt rest ih =>
    intro recs r hok hr
    simp only [noaaPoints] at hok
    cases hq : pyFloat? pt.v with
    | none => rw [hq] at hok; cases hok
    | some q =>
      rw [hq] at hok
      cases hrec : noaaPoints station lat lon product rest with
      | error e => rw [hrec] at hok; cases hok
      | ok recs' =>
        rw [hrec] at hok
        cases hok
        rcases List.mem_cons.mp hr with rfl | hr'
        · rfl
        · exact ih recs' r hrec hr'

/-- Every record a successful `fetch_noaa` call returns carries the `"NOAA"`
source. -/
theorem fetch_noaa_ok_src (payload : NoaaPayload) (net : NoaaNet)
    (recs : List StandardizedRecord) (r : StandardizedRecord)
    (hok : (fetch_noaa payload net).1 = .ok recs) (hr : r ∈ recs) :
    r.source = "NOAA" := by
  simp only [fetch_noaa] at hok
  by_cases h1 : payload.station.getD "" = ""
  · rw [if_pos h1] at hok; cases hok
  · rw [if_neg h1] at hok
    by_cases h2 : payload.product.getD "water_temperature" ∉ VALID_PRODUCTS
    · rw [if_pos h2] at hok; cases hok
    · rw [if_neg h2] at hok
      cases hd : net.resp.data with
      | none => rw [hd] at hok; cases hok
      | some pts =>
        rw [hd] at hok
        cases pts with
        | nil => cases hok
        | cons p ps =>
          cases hm : net.resp.metadata with
          | some meta =>
            rw [hm] at hok
            exact noaaPoints_src _ _ _ _ _ _ _ hok hr
          | none =>
            rw [hm] at hok
            exact noaaPoints_src _ _ _ _ _ _ _ hok hr

/-- Records surviving `fetch_fisheries`' per-item coercion carry the
`"data.gov.in"` source and the ingestion timestamp. -/
theorem coerceFishItem_fields (now : String) (it : FishItem) (r : FisheriesData)
    (h : coerceFishItem now it = some r) :
    r.source = "data.gov.in" ∧ r.ingestion_timestamp = now := by
  unfold coerceFishItem at h
  split at h
  · cases h
    exact ⟨rfl, rfl⟩
  · cases h

/-- Every record of the fisheries pagination loop carries source and
ingestion timestamp. -/
theorem fisheriesLoop_mem (upstream : Nat → List FishItem) (now : String) :
    ∀ (fuel offset : Nat) (r : FisheriesData),
      r ∈ fisheriesLoop upstream now offset fuel →
      r.source = "data.gov.in" ∧ r.ingestion_timestamp = now := by
  intro fuel
  induction fuel with
  | zero => intro offset r hr; simp [fisheriesLoop] at hr
  | succ fuel ih =>
    intro offset r hr
    simp only [fisheriesLoop] at hr
    by_cases he : (upstream offset).isEmpty = true
    · rw [if_pos he] at hr; simp at hr
    · rw [if_neg he] at hr
      rcases List.mem_append.mp hr with h | h
      · obtain ⟨it, _, hit⟩ := List.mem_filterMap.mp h
        exact coerceFishItem_fields now it r hit
      · exact ih (offset + 100) r h

/-- C2: every record emitted by each of the seven named adapters carries a
non-empty provenance tag and its timestamp-equivalent field — `source` for
the weather-marine, tide-station, species-occurrence, taxonomic-registry,
barcode-registry and government-statistics adapters (with `timestamp` /
`ingestion_timestamp` fixed to the ingestion time where the code stamps
`datetime.now()`), and the constant `provider` tag plus the `year` field for
the PDF-report adapter, whose bespoke record shape spells provenance as
`provider`/`source_url` and its timestamp-equivalent as `year`. The
`timestamp` fields of the weather-marine and tide-station records are
required fields of `StandardizedRecord` and hence always present. -/
theorem adapters_source_timestamp_invariant :
    (∀ (payload : MeteoPayload) (data : MeteoResp) r,
      r ∈ fetch_open_meteo payload data → r.source ≠ "") ∧
    (∀ (payload : NoaaPayload) (net : NoaaNet) recs r,
      (fetch_noaa payload net).1 = .ok recs → r ∈ recs → r.source ≠ "") ∧
    (∀ (payload : ObisPayload) (resp : ObisResp) (now : String) r,
      r ∈ fetch_obis payload resp now → r.source ≠ "" ∧ r.timestamp = now) ∧
    (∀ (payload : WormsPayload) (resp : WormsResp) (now : String) recs r,
      fetch_worms payload resp now = .ok recs → r ∈ recs →
      r.sourceField ≠ "" ∧ r.timestampField = now) ∧
    (∀ (payload : BoldPayload) (resp : BoldResp) (now : String) recs r,
      (fetch_bold payload resp now).1 = .ok recs → r ∈ recs →
      r.source ≠ "" ∧ r.timestamp = now) ∧
    (∀ (upstream : Nat → List FishItem) (now : String) (fuel : Nat) r,
      r ∈ fetch_fisheries upstream now fuel →
      r.source ≠ "" ∧ r.ingestion_timestamp = now) ∧
    (∀ (payload : CmfriPayload) (docs : List CmfriDoc) r,
      r ∈ fetch_cmfri payload docs →
      r.provider ≠ "" ∧ r.year = payload.year.getD "2023") := by
  refine ⟨?_, ?_, ?_, ?_, ?_, ?_, ?_⟩
  · intro payload data r hr
    simp only [fetch_open_meteo, List.mem_flatMap] at hr
    obtain ⟨param, _, hrm⟩ := hr
    rw [(meteoRecords_mem _ _ _ _ r hrm).2.2.2.2]
    decide
  · intro payload net recs r hok hr
    rw [fetch_noaa_ok_src payload net recs r hok hr]
    decide
  · intro payload resp now r hr
    simp only [fetch_obis, List.mem_map] at hr
    obtain ⟨item, _, rfl⟩ := hr
    exact ⟨append_ne_empty "obis/" _ (by decide), rfl⟩
  · intro payload resp now recs r hok hr
    simp only [fetch_worms] at hok
    by_cases hp : dictHasKey (payload.params.getD []) "scientificname" ∨
        dictHasKey (payload.params.getD []) "AphiaID"
    · rw [if_pos hp] at hok
      cases hok
      cases resp with
      | int n =>
        rcases List.mem_singleton.mp hr with rfl
        exact ⟨append_ne_empty "worms/" _ (by decide), rfl⟩
      | obj d =>
        obtain ⟨item, _, rfl⟩ := List.mem_map.mp hr
        exact ⟨append_ne_empty "worms/" _ (by decide), rfl⟩
      | list l =>
        obtain ⟨item, _, rfl⟩ := List.mem_map.mp hr
        exact ⟨append_ne_empty "worms/" _ (by decide), rfl⟩
    · rw [if_neg hp] at hok
      cases hok
  · intro payload resp now recs r hok hr
    simp only [fetch_bold] at hok
    cases hq : pyInt? ((dictGet? (payload.params.getD []) "limit").getD (.vint 20)) with
    | none => rw [hq] at hok; cases hok
    | some limit =>
      rw [hq] at hok
      cases hok
      obtain ⟨item, _, rfl⟩ := List.mem_map.mp hr
      exact ⟨append_ne_empty "bold/" _ (by decide), rfl⟩
  · intro upstream now fuel r hr
    obtain ⟨h1, h2⟩ := fisheriesLoop_mem upstream now fuel 0 r hr
    rw [h1, h2]
    exact ⟨by decide, rfl⟩
  · intro payload docs r hr
    simp only [fetch_cmfri, List.mem_map] at hr
    obtain ⟨doc, _, rfl⟩ := hr
    exact ⟨fun hc => (by decide : ¬ ("cmfri_pdf" : String) = "") hc, rfl⟩

/-- Witness for `adapters_source_timestamp_invariant`: one concrete record
per adapter, with every membership and success hypothesis discharged on
concrete inputs. -/
theorem adapters_source_timestamp_invariant_witness :
    ({ latitude := some 1, longitude := some 2, parameter := "h",
       value := .vint 5, timestamp := "t1",
       source := "open-meteo" } : StandardizedRecord).source ≠ "" ∧
    ({ station := some "S1", latitude := some 1, longitude := some 2,
       parameter := "water_temperature", value := .vfloat 4,
       timestamp := "2025-01-01T00:00",
       source := "NOAA" } : StandardizedRecord).source ≠ "" ∧
    (({ latitude := none, longitude := none, species := none, taxonRank := none,
        family := none, order := none, cls := none, basisOfRecord := none,
        depth := none, eventDate := none, timestamp := "T0",
        source := "obis/occurrence" } : ObisRecord).source ≠ "" ∧
      ({ latitude := none, longitude := none, species := none, taxonRank := none,
         family := none, order := none, cls := none, basisOfRecord := none,
         depth := none, eventDate := none, timestamp := "T0",
         source := "obis/occurrence" } : ObisRecord).timestamp = "T0") ∧
    ((WormsRecord.idOnly 42 "T0" "worms/AphiaRecordsByName").sourceField ≠ "" ∧
      (WormsRecord.idOnly 42 "T0" "worms/AphiaRecordsByName").timestampField = "T0") ∧
    (({ processid := none, species_name := none, lat := none, lon := none,
        marker := none, genbank_accession := none, timestamp := "T0",
        source := "bold/specimen" } : BoldRecord).source ≠ "" ∧
      ({ processid := none, species_name := none, lat := none, lon := none,
         marker := none, genbank_accession := none, timestamp := "T0",
         source := "bold/specimen" } : BoldRecord).timestamp = "T0") ∧
    ((⟨"N/A", 0, 0, 0, 0, "T0", "data.gov.in"⟩ : FisheriesData).source ≠ "" ∧
      (⟨"N/A", 0, 0, 0, 0, "T0", "data.gov.in"⟩ : FisheriesData).ingestion_timestamp
        = "T0") ∧
    (({ provider := "cmfri_pdf", year := "2023", report_name := "f",
        source_url := "u", pages := 1, length_chars := 3,
        sections := split_sections "txt", tables := [] } : CmfriRecord).provider
        ≠ "" ∧
      ({ provider := "cmfri_pdf", year := "2023", report_name := "f",
         source_url := "u", pages := 1, length_chars := 3,
         sections := split_sections "txt", tables := [] } : CmfriRecord).year
        = ({} : CmfriPayload).year.getD "2023") := by
  have h := adapters_source_timestamp_invariant
  refine ⟨?_, ?_, ?_, ?_, ?_, ?_, ?_⟩
  · exact h.1 { latitude := some 1, longitude := some 2, hourly := some ["h"] }
      { hourly := some { time := ["t1"], series := [("h", [.vint 5])] } }
      { latitude := some 1, longitude := some 2, parameter := "h",
        value := .vint 5, timestamp := "t1", source := "open-meteo" }
      (by decide)
  · exact h.2.1 { station := some "S1" }
      { resp := { data := some [⟨"2025-01-01 00:00", .vint 4⟩],
                  metadata := some { lat := some 1, lon := some 2 } },
        stationLookup := none }
      [{ station := some "S1", latitude := some 1, longitude := some 2,
         parameter := "water_temperature", value := .vfloat 4,
         timestamp := "2025-01-01T00:00", source := "NOAA" }]
      { station := some "S1", latitude := some 1, longitude := some 2,
        parameter := "water_temperature", value := .vfloat 4,
        timestamp := "2025-01-01T00:00", source := "NOAA" }
      rfl (by decide)
  · exact h.2.2.1 {} { results := some [{}] } "T0"
      { latitude := none, longitude := none, species := none, taxonRank := none,
        family := none, order := none, cls := none, basisOfRecord := none,
        depth := none, eventDate := none, timestamp := "T0",
        source := "obis/occurrence" }
      (by decide)
  · exact h.2.2.2.1 ⟨none, some [("scientificname", .vstr "Chromis")], none⟩
      (.int 42) "T0" [.idOnly 42 "T0" "worms/AphiaRecordsByName"]
      (.idOnly 42 "T0" "worms/AphiaRecordsByName") rfl (by decide)
  · exact h.2.2.2.2.1 ⟨none, some [("limit", .vint 1)]⟩ (.list [{}]) "T0"
      [{ processid := none, species_name := none, lat := none, lon := none,
         marker := none, genbank_accession := none, timestamp := "T0",
         source := "bold/specimen" }]
      { processid := none, species_name := none, lat := none, lon := none,
        marker := none, genbank_accession := none, timestamp := "T0",
        source := "bold/specimen" }
      rfl (by decide)
  · exact h.2.2.2.2.2.1
      (fun o => if o = 0 then [⟨none, none, none, none, none⟩] else [])
      "T0" 2 ⟨"N/A", 0, 0, 0, 0, "T0", "data.gov.in"⟩ (by decide)
  · exact h.2.2.2.2.2.2 {} [⟨"u", "f", "txt", []⟩]
      { provider := "cmfri_pdf", year := "2023", report_name := "f",
        source_url := "u", pages := 1, length_chars := 3,
        sections := split_sections "txt", tables := [] }
      (by decide)

end OceanSync
